import Mathlib

/-!
Verification of the esp32_aws telemetry agent (Rust, 3 source files:
src/main.rs, src/wifi.rs, src/structs.rs) against its specification.

The source is shallowly embedded: every external driver call (sensor,
WiFi, MQTT) is modelled by a boolean/functional oracle giving the result
of each invocation, and each control-flow phase of `main` and of
`try_reconnect_wifi` is a Lean function from those oracles to a trace of
observable events plus a result.  Floating-point sensor values are
modelled as rationals; the Rust `as u32` cast (saturating truncation
toward zero) is `castU32`.
-/

namespace Esp32Aws

/-- `MAX_RETRY_ATTEMPTS` from main.rs line 16. -/
def MAX_RETRY_ATTEMPTS : Nat := 3

/-- `RETRY_DELAY_MS` from main.rs line 17. -/
def RETRY_DELAY_MS : Nat := 5000

/-- Observable actions of the program: driver calls, log lines and sleeps. -/
inductive Event where
  | createAttempt
  | logCreateFail (attempt : Nat)
  | subscribeCall
  | logSubscribeFail (attempt : Nat)
  | logSubscribeOk
  | logStartMainLoop
  | isConnQuery (result : Bool)
  | connectCall (ok : Bool)
  | setSensorMode (ok : Bool)
  | getSensorData (ok : Bool)
  | publishCall (payload : String)
  | logPublishOk
  | logPublishFail
  | recoveryCall
  | sleep (ms : Nat)
  deriving DecidableEq, Repr

/-- `MqttMessage` from structs.rs lines 8-11: a single string field. -/
structure MqttMessage where
  message : String
  deriving DecidableEq, Repr

/-- u32::MAX, the saturation bound of Rust's float-to-u32 `as` cast. -/
def U32_MAX : Nat := 4294967295

/-- Rust `f as u32` on a (non-NaN) float value, modelled on ℚ:
saturating truncation toward zero — negative values clamp to 0, values
at or above 2^32 clamp to `U32_MAX`, values in range truncate. -/
def castU32 (x : ℚ) : Nat :=
  if x < 0 then 0 else min x.floor.toNat U32_MAX

/-- The four sensor values of one acquisition, main.rs line 155/161
(`temperature_celsius`, `humidity_percent`, `pressure_hpa`,
`gas_resistance_ohm`), modelled as rationals. -/
structure Reading where
  temperature : ℚ
  humidity : ℚ
  pressure : ℚ
  gas_resistance : ℚ

/-- Decimal digits of a natural number, most significant first;
fuel-based so that it reduces in the kernel. -/
def natDigitsAux : Nat → Nat → List Char
  | _, 0 => []
  | n, fuel+1 =>
    if n < 10 then [Char.ofNat (48 + n)]
    else natDigitsAux (n / 10) fuel ++ [Char.ofNat (48 + n % 10)]

/-- Decimal rendering of a natural number, as Rust's `Display` for u32. -/
def natToString (n : Nat) : String :=
  String.mk (natDigitsAux n (n + 1))

/-- main.rs line 161: `format!("{}, {}, {}, {}", data.temperature_celsius()
as u32, ...)` — the four values cast to u32 and joined with ", ". -/
def sensorDataString (r : Reading) : String :=
  natToString (castU32 r.temperature) ++ ", " ++ natToString (castU32 r.humidity) ++ ", " ++
    natToString (castU32 r.pressure) ++ ", " ++ natToString (castU32 r.gas_resistance)

/-- Hex digit used in JSON \u escapes. -/
def hexDigit (n : Nat) : Char :=
  if n < 10 then Char.ofNat (48 + n) else Char.ofNat (87 + n)

/-- JSON string escaping as performed by serde_json when serializing a
Rust `String` field. -/
def escapeJsonChar (c : Char) : String :=
  if c = '"' then "\\\""
  else if c = '\\' then "\\\\"
  else if c = '\n' then "\\n"
  else if c = '\r' then "\\r"
  else if c = '\t' then "\\t"
  else if c.toNat = 8 then "\\b"
  else if c.toNat = 12 then "\\f"
  else if c.toNat < 32 then
    "\\u00" ++ String.singleton (hexDigit (c.toNat / 16)) ++ String.singleton (hexDigit (c.toNat % 16))
  else String.singleton c

/-- JSON string escaping lifted to strings. -/
def escapeJson (s : String) : String :=
  String.join (s.toList.map escapeJsonChar)

/-- main.rs line 166: `serde_json::to_string(&sensor_message)` — serde_json
serializes the one-field struct `MqttMessage` as a JSON object with key
"message" and the escaped string value, no inter-token whitespace. -/
def serializeMqttMessage (m : MqttMessage) : String :=
  "\x7b\"message\":\"" ++ escapeJson m.message ++ "\"\x7d"

/-- The full encoding of one Reading into the published wire payload
(main.rs lines 161-166). -/
def encodeReading (r : Reading) : String :=
  serializeMqttMessage ⟨sensorDataString r⟩

/-! ## Inbound message callback (main.rs lines 84-107)

The callback's `Received` arm: skip empty payloads, try
`serde_json::from_slice::<MqttMessage>(data)`; on success log the message,
on failure log `std::str::from_utf8(data).unwrap()` together with the
error — and that `unwrap` panics when the payload is not valid UTF-8.
Payload bytes are `List Nat` (each < 256). -/

/-- Is `b` a UTF-8 continuation byte (0x80..0xBF)? -/
def isCont (b : Nat) : Bool := 128 ≤ b && b < 192

/-- Strict UTF-8 decoding of a byte sequence, as Rust's
`std::str::from_utf8`: rejects truncated sequences, bad continuation
bytes, overlong encodings, surrogates and code points above 0x10FFFF. -/
def utf8Decode : List Nat → Option (List Char)
  | [] => some []
  | b :: rest =>
    if b < 128 then
      match utf8Decode rest with
      | some cs => some (Char.ofNat b :: cs)
      | none => none
    else if 194 ≤ b && b ≤ 223 then
      match rest with
      | b1 :: rest2 =>
        if isCont b1 then
          match utf8Decode rest2 with
          | some cs => some (Char.ofNat ((b % 32) * 64 + b1 % 64) :: cs)
          | none => none
        else none
      | [] => none
    else if 224 ≤ b && b ≤ 239 then
      match rest with
      | b1 :: b2 :: rest3 =>
        if isCont b1 && isCont b2 &&
            !(b = 224 && b1 < 160) && !(b = 237 && 160 ≤ b1) then
          match utf8Decode rest3 with
          | some cs => some (Char.ofNat ((b % 16) * 4096 + (b1 % 64) * 64 + b2 % 64) :: cs)
          | none => none
        else none
      | _ => none
    else if 240 ≤ b && b ≤ 244 then
      match rest with
      | b1 :: b2 :: b3 :: rest4 =>
        if isCont b1 && isCont b2 && isCont b3 &&
            !(b = 240 && b1 < 144) && !(b = 244 && 144 ≤ b1) then
          match utf8Decode rest4 with
          | some cs => some (Char.ofNat ((b % 8) * 262144 + (b1 % 64) * 4096 +
              (b2 % 64) * 64 + b3 % 64) :: cs)
          | none => none
        else none
      | _ => none
    else none

/-- The character `{` (written via its code so that no brace appears in
string or character literals). -/
def lbrace : Char := Char.ofNat 123

/-- The character `}`. -/
def rbrace : Char := Char.ofNat 125

/-- Skip JSON insignificant whitespace. -/
def skipWs : List Char → List Char
  | [] => []
  | c :: rest =>
    if c = ' ' || c = '\n' || c = '\t' || c = '\r' then skipWs rest else c :: rest

/-- Value of a hex digit, if any. -/
def parseHex (c : Char) : Option Nat :=
  if '0' ≤ c && c ≤ '9' then some (c.toNat - 48)
  else if 'a' ≤ c && c ≤ 'f' then some (c.toNat - 87)
  else if 'A' ≤ c && c ≤ 'F' then some (c.toNat - 55)
  else none

/-- Simple (single-character) JSON string escapes. -/
def escSimple (e : Char) : Option Char :=
  if e = '"' then some '"'
  else if e = '\\' then some '\\'
  else if e = '/' then some '/'
  else if e = 'n' then some '\n'
  else if e = 't' then some '\t'
  else if e = 'r' then some '\r'
  else if e = 'b' then some (Char.ofNat 8)
  else if e = 'f' then some (Char.ofNat 12)
  else none

/-- Parse the body of a JSON string after its opening quote; returns the
content and the remaining input. -/
def parseJsonStringAux : List Char → Option (List Char × List Char)
  | [] => none
  | c :: rest =>
    if c = '"' then some ([], rest)
    else if c = '\\' then
      match rest with
      | [] => none
      | e :: rest2 =>
        if e = 'u' then
          match rest2 with
          | h1 :: h2 :: h3 :: h4 :: rest3 =>
            match parseHex h1, parseHex h2, parseHex h3, parseHex h4 with
            | some a, some b, some c2, some d =>
              match parseJsonStringAux rest3 with
              | some (cs, rem) =>
                some (Char.ofNat (a * 4096 + b * 256 + c2 * 16 + d) :: cs, rem)
              | none => none
            | _, _, _, _ => none
          | _ => none
        else
          match escSimple e with
          | some ch =>
            match parseJsonStringAux rest2 with
            | some (cs, rem) => some (ch :: cs, rem)
            | none => none
          | none => none
    else if c.toNat < 32 then none
    else
      match parseJsonStringAux rest with
      | some (cs, rem) => some (c :: cs, rem)
      | none => none

/-- Parse exactly the JSON document shape serde_json deserializes into
`MqttMessage`: an object with the key "message" and a string value. -/
def parseMessageShape (input : List Char) : Option String :=
  match skipWs input with
  | [] => none
  | c :: rest =>
    if c = lbrace then
      match skipWs rest with
      | [] => none
      | q :: rest2 =>
        if q = '"' then
          match parseJsonStringAux rest2 with
          | none => none
          | some (key, rest3) =>
            if key = ['m', 'e', 's', 's', 'a', 'g', 'e'] then
              match skipWs rest3 with
              | [] => none
              | colon :: rest4 =>
                if colon = ':' then
                  match skipWs rest4 with
                  | [] => none
                  | q2 :: rest5 =>
                    if q2 = '"' then
                      match parseJsonStringAux rest5 with
                      | none => none
                      | some (val, rest6) =>
                        match skipWs rest6 with
                        | [] => none
                        | cl :: rest7 =>
                          if cl = rbrace then
                            if (skipWs rest7).isEmpty then some (String.mk val) else none
                          else none
                    else none
                else none
            else none
        else none
    else none

/-- main.rs line 91: `serde_json::from_slice::<MqttMessage>(data)`,
modelled for the fixed `MqttMessage` shape: the bytes must be valid
UTF-8 and parse as an object with a "message" string field. -/
def decodeMqttMessage (data : List Nat) : Except String MqttMessage :=
  match utf8Decode data with
  | none => .error "invalid unicode in payload"
  | some cs =>
    match parseMessageShape cs with
    | some s => .ok ⟨s⟩
    | none => .error "payload does not match MqttMessage"

/-- What the `Received` arm of the callback does with a payload. -/
inductive ReceivedOutcome where
  | skippedEmpty
  | logReceived (m : MqttMessage)
  | logParseError (rendered : String) (err : String)
  | panicked
  deriving DecidableEq, Repr

/-- main.rs lines 88-104: the body of the `EventPayload::Received` arm.
`panicked` is the outcome of `std::str::from_utf8(data).unwrap()` on a
payload that is not valid UTF-8. -/
def onMessageReceived (data : List Nat) : ReceivedOutcome :=
  if data.isEmpty then .skippedEmpty
  else
    match decodeMqttMessage data with
    | .ok m => .logReceived m
    | .error err =>
      match utf8Decode data with
      | some cs => .logParseError (String.mk cs) err
      | none => .panicked

/-! ## MQTT client creation with retry (main.rs lines 77-121)

`ok i` is the oracle for the outcome of the i-th (0-based) call to
`EspMqttClient::new_cb`.  The Rust loop is
`while retry_count < MAX_RETRY_ATTEMPTS`, with `retry_count` incremented
after each failure; we run it with `fuel = MAX_RETRY_ATTEMPTS - retry_count`,
which is exactly the number of loop iterations remaining. -/

/-- One unfolding of the creation retry loop: attempt, and on failure log
`attempt retry_count + 1`, sleep `RETRY_DELAY_MS`, retry.  Returns the
trace and `some i` when the i-th attempt succeeded, `none` on exhaustion. -/
def createClientGo (ok : Nat → Bool) : Nat → Nat → List Event × Option Nat
  | _, 0 => ([], none)
  | retryCount, fuel+1 =>
    if ok retryCount then ([Event.createAttempt], some retryCount)
    else
      let rest := createClientGo ok (retryCount+1) fuel
      (Event.createAttempt :: Event.logCreateFail (retryCount+1) ::
        Event.sleep RETRY_DELAY_MS :: rest.1, rest.2)

/-- The whole creation phase, main.rs lines 77-119. -/
def createClient (ok : Nat → Bool) : List Event × Option Nat :=
  createClientGo ok 0 MAX_RETRY_ATTEMPTS

/-- main.rs line 121: `client.ok_or_else(...)?` — exhaustion becomes a
fatal startup error naming the attempt count. -/
def createClientResult (ok : Nat → Bool) : Except String Nat :=
  match (createClient ok).2 with
  | some i => .ok i
  | none => .error ("Failed to create MQTT client after " ++
      natToString MAX_RETRY_ATTEMPTS ++ " attempts")

/-! ## Initial subscription with retry (main.rs lines 124-137) -/

/-- The subscription retry loop; same shape as creation, but exhaustion
produces no error value — the function simply ends with `false`. -/
def subscribeLoopGo (ok : Nat → Bool) : Nat → Nat → List Event × Bool
  | _, 0 => ([], false)
  | retryCount, fuel+1 =>
    if ok retryCount then ([Event.subscribeCall, Event.logSubscribeOk], true)
    else
      let rest := subscribeLoopGo ok (retryCount+1) fuel
      (Event.subscribeCall :: Event.logSubscribeFail (retryCount+1) ::
        Event.sleep RETRY_DELAY_MS :: rest.1, rest.2)

/-- The whole initial-subscription phase. -/
def initialSubscribe (ok : Nat → Bool) : List Event × Bool :=
  subscribeLoopGo ok 0 MAX_RETRY_ATTEMPTS

/-- main.rs lines 124-139: after the subscription loop — whatever its
outcome — control falls through to `info!("Starting main loop")` and the
supervisor loop; nothing in this phase can return an error. -/
def startupSubscribePhase (ok : Nat → Bool) : List Event × Bool :=
  ((initialSubscribe ok).1 ++ [Event.logStartMainLoop], (initialSubscribe ok).2)

/-! ## WiFi reconnect loop and recovery procedure (wifi.rs lines 83-103)

`isConn k` is the result of the k-th `wifi.is_connected()` query inside
the `while` loop; `connectOk k` the result of the k-th `wifi.connect()`
call.  The loop is unbounded in the source; we run it on fuel and read
`none` as "still looping after `fuel` iterations". -/

/-- wifi.rs lines 90-96: `while !wifi.is_connected() { if connect().is_err()
{ sleep 10000 } }`.  Returns the trace and the index of the query that
observed the link up. -/
def reconnectLoopGo (isConn connectOk : Nat → Bool) : Nat → Nat → Option (List Event × Nat)
  | _, 0 => none
  | k, fuel+1 =>
    if isConn k then some ([Event.isConnQuery true], k)
    else
      match reconnectLoopGo isConn connectOk (k+1) fuel with
      | none => none
      | some (tr, kf) =>
        if connectOk k then
          some (Event.isConnQuery false :: Event.connectCall true :: tr, kf)
        else
          some (Event.isConnQuery false :: Event.connectCall false ::
            Event.sleep 10000 :: tr, kf)

/-- wifi.rs lines 83-103, `try_reconnect_wifi`: block in the reconnect
loop, then sleep 10 000 ms ("Sleep to let mqtt client reconnect"), then
`mqtt_client.subscribe(...)?` — whose failure propagates out as the
function's error.  `subscribeOk` is the oracle for that subscribe call. -/
def try_reconnect_wifi (isConn connectOk : Nat → Bool) (subscribeOk : Bool)
    (fuel : Nat) : Option (List Event × Except String Unit) :=
  match reconnectLoopGo isConn connectOk 0 fuel with
  | none => none
  | some (tr, _) =>
    some (tr ++ [Event.sleep 10000, Event.subscribeCall],
      if subscribeOk then .ok () else .error "subscribe failed")

/-! ## One steady-state cycle iteration (main.rs lines 141-181) -/

/-- The oracles for one iteration of the supervisor loop.  `recovery` is
the observable behaviour (trace and result) of the `try_reconnect_wifi`
call, if one is made this iteration. -/
structure CycleOracle where
  isConnected : Bool
  setModeOk : Bool
  dataOk : Bool
  reading : Reading
  publishOk : Bool
  recovery : List Event × Except String Unit

/-- How one iteration of the supervisor loop ends. -/
inductive IterResult where
  | continued
  | published
  | recovered
  | fatal (msg : String)
  deriving DecidableEq, Repr

/-- main.rs lines 141-181, one iteration of `loop`: sleep 5000 ms, check
the link (enter recovery and `continue` when down), trigger the sensor
(`set_sensor_mode` then `get_sensor_data`, each fatal via `?` on error),
encode, publish (entering recovery on failure).  Errors of the recovery
call itself propagate via `?` as `fatal`. -/
def cycleIteration (o : CycleOracle) : List Event × IterResult :=
  let pre := [Event.sleep 5000, Event.isConnQuery o.isConnected]
  if o.isConnected = false then
    match o.recovery.2 with
    | .ok _ => (pre ++ Event.recoveryCall :: o.recovery.1, .continued)
    | .error e => (pre ++ Event.recoveryCall :: o.recovery.1, .fatal e)
  else if o.setModeOk = false then
    (pre ++ [Event.setSensorMode false], .fatal "Failed to set sensor mode")
  else if o.dataOk = false then
    (pre ++ [Event.setSensorMode true, Event.getSensorData false],
      .fatal "Failed to get sensor data")
  else
    let meas := [Event.setSensorMode true, Event.getSensorData true]
    let payload := encodeReading o.reading
    if o.publishOk then
      (pre ++ meas ++ [Event.publishCall payload, Event.logPublishOk], .published)
    else
      match o.recovery.2 with
      | .ok _ => (pre ++ meas ++ Event.publishCall payload :: Event.logPublishFail ::
          Event.recoveryCall :: o.recovery.1, .recovered)
      | .error e => (pre ++ meas ++ Event.publishCall payload :: Event.logPublishFail ::
          Event.recoveryCall :: o.recovery.1, .fatal e)

/-! ## Helper predicates on traces -/

/-- Every `connectCall false` in the trace is immediately followed by a
10 000 ms sleep. -/
def sleepsAfterFailedConnect : List Event → Bool
  | [] => true
  | Event.connectCall false :: rest =>
    match rest with
    | Event.sleep 10000 :: _ => sleepsAfterFailedConnect rest
    | _ => false
  | _ :: rest => sleepsAfterFailedConnect rest

/-- Every `logCreateFail` in the trace is immediately followed by a
`RETRY_DELAY_MS` sleep. -/
def sleepsAfterCreateFail : List Event → Bool
  | [] => true
  | Event.logCreateFail _ :: rest =>
    match rest with
    | Event.sleep 5000 :: _ => sleepsAfterCreateFail rest
    | _ => false
  | _ :: rest => sleepsAfterCreateFail rest

/-- Events that the WiFi reconnect loop can emit. -/
def isReconnectEv : Event → Bool
  | Event.isConnQuery _ => true
  | Event.connectCall _ => true
  | Event.sleep _ => true
  | _ => false

/-- Sensor-measurement or publish events. -/
def sensorOrPublish : Event → Bool
  | Event.setSensorMode _ => true
  | Event.getSensorData _ => true
  | Event.publishCall _ => true
  | _ => false

/-- Soundness of the reconnect loop: whenever it returns, the final
`is_connected` query observed `true`, every failed connect was followed
by a 10 000 ms sleep, and only link-loop events were emitted. -/
theorem reconnectLoopGo_some (isConn connectOk : Nat → Bool) :
    ∀ fuel k0 tr k, reconnectLoopGo isConn connectOk k0 fuel = some (tr, k) →
      isConn k = true ∧ sleepsAfterFailedConnect tr = true ∧
      ∀ e ∈ tr, isReconnectEv e = true := by
  intro fuel
  induction fuel with
  | zero => intro k0 tr k h; simp [reconnectLoopGo] at h
  | succ n ih =>
    intro k0 tr k h
    by_cases hc : isConn k0 = true
    · simp [reconnectLoopGo, hc] at h
      obtain ⟨h1, h2⟩ := h
      subst h1; subst h2
      refine ⟨hc, rfl, ?_⟩
      intro e he
      simp at he
      subst he
      rfl
    · simp [reconnectLoopGo, hc] at h
      cases hrec : reconnectLoopGo isConn connectOk (k0+1) n with
      | none => rw [hrec] at h; simp at h
      | some p =>
        obtain ⟨tr', kf⟩ := p
        rw [hrec] at h
        obtain ⟨hkf, hsl, hmem⟩ := ih (k0+1) tr' kf hrec
        by_cases hco : connectOk k0 = true
        · simp [hco] at h
          obtain ⟨h1, h2⟩ := h
          subst h1; subst h2
          refine ⟨hkf, ?_, ?_⟩
          · simpa [sleepsAfterFailedConnect] using hsl
          · intro e he
            simp at he
            rcases he with he | he | he
            · subst he; rfl
            · subst he; rfl
            · exact hmem e he
        · simp [hco] at h
          obtain ⟨h1, h2⟩ := h
          subst h1; subst h2
          refine ⟨hkf, ?_, ?_⟩
          · simpa [sleepsAfterFailedConnect] using hsl
          · intro e he
            simp at he
            rcases he with he | he | he | he
            · subst he; rfl
            · subst he; rfl
            · subst he; rfl
            · exact hmem e he

/-- If the link never comes back, the reconnect loop never returns, for
any amount of fuel: the retry is unbounded. -/
theorem reconnectLoopGo_never (connectOk : Nat → Bool) :
    ∀ fuel k0, reconnectLoopGo (fun _ => false) connectOk k0 fuel = none := by
  intro fuel
  induction fuel with
  | zero => intro k0; rfl
  | succ n ih => intro k0; simp [reconnectLoopGo, ih (k0+1)]

/-- C6: the link-recovery reconnect loop (wifi.rs lines 88-96) is
unbounded: whenever it returns, the last `is_connected()` query reported
true; every failed association attempt is immediately followed by a fixed
10 000 ms sleep; and when the link never reports connected it does not
return for any number of iterations. -/
theorem C6_reconnect_unbounded :
    (∀ isConn connectOk : Nat → Bool, ∀ fuel tr k,
        reconnectLoopGo isConn connectOk 0 fuel = some (tr, k) →
        isConn k = true ∧ sleepsAfterFailedConnect tr = true) ∧
    (∀ connectOk : Nat → Bool, ∀ fuel,
        reconnectLoopGo (fun _ => false) connectOk 0 fuel = none) := by
  constructor
  · intro isConn connectOk fuel tr k h
    obtain ⟨h1, h2, _⟩ := reconnectLoopGo_some isConn connectOk fuel 0 tr k h
    exact ⟨h1, h2⟩
  · intro connectOk fuel
    exact reconnectLoopGo_never connectOk fuel 0

/-- Witness for C6: a link that comes back at the third query returns
with that query observing true and a sleep after each of the two failed
connects; a link that never comes back yields `none` at fuel 7. -/
theorem C6_reconnect_unbounded_witness :
    ((fun k => decide (2 ≤ k)) 2 = true ∧
      sleepsAfterFailedConnect
        [Event.isConnQuery false, Event.connectCall false, Event.sleep 10000,
         Event.isConnQuery false, Event.connectCall false, Event.sleep 10000,
         Event.isConnQuery true] = true) ∧
    reconnectLoopGo (fun _ => false) (fun _ => false) 0 7 = none :=
  ⟨C6_reconnect_unbounded.1 (fun k => decide (2 ≤ k)) (fun _ => false) 5 _ 2 (by decide),
   C6_reconnect_unbounded.2 (fun _ => false) 7⟩

/-- C9: the recovery procedure `try_reconnect_wifi` (wifi.rs lines
83-103), after the reconnect loop reports the link connected, sleeps a
fixed 10 000 ms settle interval and then issues exactly one `subscribe`
on the existing session — it never recreates the session (no creation
event anywhere in its trace) — and a failure of that subscribe
propagates as the procedure's error result. -/
theorem C9_recovery_settle_then_subscribe :
    ∀ isConn connectOk : Nat → Bool, ∀ subscribeOk fuel tr res,
      try_reconnect_wifi isConn connectOk subscribeOk fuel = some (tr, res) →
      (∃ tr0 k, reconnectLoopGo isConn connectOk 0 fuel = some (tr0, k) ∧
        isConn k = true ∧
        tr = tr0 ++ [Event.sleep 10000, Event.subscribeCall] ∧
        Event.subscribeCall ∉ tr0) ∧
      Event.createAttempt ∉ tr ∧
      (subscribeOk = false → res = .error "subscribe failed") ∧
      (subscribeOk = true → res = .ok ()) := by
  intro isConn connectOk subscribeOk fuel tr res h
  unfold try_reconnect_wifi at h
  cases hrec : reconnectLoopGo isConn connectOk 0 fuel with
  | none => rw [hrec] at h; simp at h
  | some p =>
    obtain ⟨tr0, k⟩ := p
    rw [hrec] at h
    simp at h
    obtain ⟨htr, hres⟩ := h
    obtain ⟨hconn, _, hmem⟩ := reconnectLoopGo_some isConn connectOk fuel 0 tr0 k hrec
    have hsub : Event.subscribeCall ∉ tr0 := by
      intro hin
      have := hmem _ hin
      simp [isReconnectEv] at this
    have hcreate0 : Event.createAttempt ∉ tr0 := by
      intro hin
      have := hmem _ hin
      simp [isReconnectEv] at this
    refine ⟨⟨tr0, k, rfl, hconn, htr.symm, hsub⟩, ?_, ?_, ?_⟩
    · subst htr
      simp [hcreate0]
    · intro hs
      subst hs
      simpa using hres.symm
    · intro hs
      subst hs
      simpa using hres.symm

/-- Witness for C9: with the link back at the second query and a failing
subscribe, the procedure returns the loop trace followed by the settle
sleep and the one subscribe call, and reports the subscribe error. -/
theorem C9_recovery_settle_then_subscribe_witness :
    (∃ tr0 k,
      reconnectLoopGo (fun k => decide (1 ≤ k)) (fun _ => false) 0 3 = some (tr0, k) ∧
      (fun k => decide (1 ≤ k)) k = true ∧
      ([Event.isConnQuery false, Event.connectCall false, Event.sleep 10000,
        Event.isConnQuery true, Event.sleep 10000, Event.subscribeCall] : List Event) =
        tr0 ++ [Event.sleep 10000, Event.subscribeCall] ∧
      Event.subscribeCall ∉ tr0) ∧
    Event.createAttempt ∉
      ([Event.isConnQuery false, Event.connectCall false, Event.sleep 10000,
        Event.isConnQuery true, Event.sleep 10000, Event.subscribeCall] : List Event) ∧
    (false = false → (Except.error "subscribe failed" : Except String Unit) = .error "subscribe failed") ∧
    (false = true → (Except.error "subscribe failed" : Except String Unit) = .ok ()) :=
  C9_recovery_settle_then_subscribe (fun k => decide (1 ≤ k)) (fun _ => false) false 3 _ _ rfl

/-- Number of `createAttempt` events in a trace. -/
def countCreates : List Event → Nat
  | [] => 0
  | Event.createAttempt :: rest => countCreates rest + 1
  | _ :: rest => countCreates rest

theorem createClientGo_zero (ok : Nat → Bool) (rc : Nat) :
    createClientGo ok rc 0 = ([], none) := rfl

theorem createClientGo_succ (ok : Nat → Bool) (rc fuel : Nat) :
    createClientGo ok rc (fuel+1) =
      if ok rc then ([Event.createAttempt], some rc)
      else (Event.createAttempt :: Event.logCreateFail (rc+1) ::
        Event.sleep RETRY_DELAY_MS :: (createClientGo ok (rc+1) fuel).1,
        (createClientGo ok (rc+1) fuel).2) := by
  simp [createClientGo]

/-- C1 counterexample: the claim asserts that any `N ≤ 3` creation
failures followed by a success lead to successful creation, but with
exactly 3 failures followed by a would-be success on the 4th call the
loop has already exhausted its 3 attempts: creation yields the fatal
startup error and the successful call never happens (only 3 attempts are
made). -/
theorem C1_create_three_failures_then_success_fails :
    createClientResult (fun i => decide (3 ≤ i)) =
      .error "Failed to create MQTT client after 3 attempts" ∧
    countCreates (createClient (fun i => decide (3 ≤ i))).1 = 3 :=
  ⟨rfl, by decide⟩

/-- C1 (amended): TransportSession creation is retried with
`max_attempts = 3` and a fixed 5000 ms sleep after each failure; for
every sequence of `N ≤ 2` creation failures followed by a success,
creation succeeds at the first successful attempt, exactly `N + 1`
attempts are made, and every failure log is followed by the 5000 ms
sleep; for 3 or more consecutive failures, creation stops after exactly
3 attempts and yields the terminal failure naming the attempt count,
which is fatal to startup. -/
theorem C1_amended_create_retry :
    (∀ ok : Nat → Bool, ∀ N, N < MAX_RETRY_ATTEMPTS →
      (∀ i, i < N → ok i = false) → ok N = true →
      createClientResult ok = .ok N ∧
      countCreates (createClient ok).1 = N + 1 ∧
      sleepsAfterCreateFail (createClient ok).1 = true) ∧
    (∀ ok : Nat → Bool, (∀ i, i < MAX_RETRY_ATTEMPTS → ok i = false) →
      createClientResult ok = .error "Failed to create MQTT client after 3 attempts" ∧
      countCreates (createClient ok).1 = MAX_RETRY_ATTEMPTS) := by
  constructor
  · intro ok N hN hfail hsucc
    simp only [MAX_RETRY_ATTEMPTS] at hN
    interval_cases N
    · refine ⟨?_, ?_, ?_⟩ <;>
        simp [createClientResult, createClient, MAX_RETRY_ATTEMPTS,
          createClientGo_succ, createClientGo_zero, hsucc, countCreates,
          sleepsAfterCreateFail]
    · have h0 : ok 0 = false := hfail 0 (by norm_num)
      refine ⟨?_, ?_, ?_⟩ <;>
        simp [createClientResult, createClient, MAX_RETRY_ATTEMPTS,
          createClientGo_succ, createClientGo_zero, h0, hsucc, countCreates,
          sleepsAfterCreateFail, RETRY_DELAY_MS]
    · have h0 : ok 0 = false := hfail 0 (by norm_num)
      have h1 : ok 1 = false := hfail 1 (by norm_num)
      refine ⟨?_, ?_, ?_⟩ <;>
        simp [createClientResult, createClient, MAX_RETRY_ATTEMPTS,
          createClientGo_succ, createClientGo_zero, h0, h1, hsucc, countCreates,
          sleepsAfterCreateFail, RETRY_DELAY_MS]
  · intro ok hfail
    have h0 : ok 0 = false := hfail 0 (by norm_num [MAX_RETRY_ATTEMPTS])
    have h1 : ok 1 = false := hfail 1 (by norm_num [MAX_RETRY_ATTEMPTS])
    have h2 : ok 2 = false := hfail 2 (by norm_num [MAX_RETRY_ATTEMPTS])
    constructor
    · simp [createClientResult, createClient, MAX_RETRY_ATTEMPTS,
        createClientGo_succ, createClientGo_zero, h0, h1, h2]
      decide
    · simp [createClient, MAX_RETRY_ATTEMPTS, createClientGo_succ,
        createClientGo_zero, h0, h1, h2, countCreates]

/-- Witness for C1 (amended): one failure then a success creates the
client on attempt index 1 with two attempts and a sleep after the
failure; three failures exhaust the retries with the fatal message. -/
theorem C1_amended_create_retry_witness :
    ((1 < MAX_RETRY_ATTEMPTS ∧ (fun i => decide (1 ≤ i)) 1 = true) ∧
      createClientResult (fun i => decide (1 ≤ i)) = .ok 1 ∧
      countCreates (createClient (fun i => decide (1 ≤ i))).1 = 2 ∧
      sleepsAfterCreateFail (createClient (fun i => decide (1 ≤ i))).1 = true) ∧
    (createClientResult (fun _ => false) = .error "Failed to create MQTT client after 3 attempts" ∧
      countCreates (createClient (fun _ => false)).1 = MAX_RETRY_ATTEMPTS) :=
  ⟨⟨⟨by decide, by decide⟩,
    C1_amended_create_retry.1 (fun i => decide (1 ≤ i)) 1 (by decide)
      (fun i hi => by interval_cases i; decide) (by decide)⟩,
   C1_amended_create_retry.2 (fun _ => false) (fun _ _ => rfl)⟩

/-- C8: exhaustion of the 3 bounded retry attempts for the initial
subscription (main.rs lines 124-137) is non-fatal: each of the 3
failures is logged with its attempt index, and afterwards control
reaches "Starting main loop" with no confirmed subscription — the phase
produces no error value and the process does not exit. -/
theorem C8_subscribe_exhaustion_nonfatal :
    ∀ ok : Nat → Bool, (∀ i, i < MAX_RETRY_ATTEMPTS → ok i = false) →
      startupSubscribePhase ok =
        ([Event.subscribeCall, Event.logSubscribeFail 1, Event.sleep RETRY_DELAY_MS,
          Event.subscribeCall, Event.logSubscribeFail 2, Event.sleep RETRY_DELAY_MS,
          Event.subscribeCall, Event.logSubscribeFail 3, Event.sleep RETRY_DELAY_MS,
          Event.logStartMainLoop], false) := by
  intro ok hfail
  have h0 : ok 0 = false := hfail 0 (by norm_num [MAX_RETRY_ATTEMPTS])
  have h1 : ok 1 = false := hfail 1 (by norm_num [MAX_RETRY_ATTEMPTS])
  have h2 : ok 2 = false := hfail 2 (by norm_num [MAX_RETRY_ATTEMPTS])
  simp [startupSubscribePhase, initialSubscribe, MAX_RETRY_ATTEMPTS,
    subscribeLoopGo, h0, h1, h2]

/-- Witness for C8: the always-failing subscribe oracle. -/
theorem C8_subscribe_exhaustion_nonfatal_witness :
    startupSubscribePhase (fun _ => false) =
      ([Event.subscribeCall, Event.logSubscribeFail 1, Event.sleep RETRY_DELAY_MS,
        Event.subscribeCall, Event.logSubscribeFail 2, Event.sleep RETRY_DELAY_MS,
        Event.subscribeCall, Event.logSubscribeFail 3, Event.sleep RETRY_DELAY_MS,
        Event.logStartMainLoop], false) :=
  C8_subscribe_exhaustion_nonfatal (fun _ => false) (fun _ _ => rfl)

/-- C2: in the steady-state cycle (main.rs lines 168-180), whenever the
publish fails, the very next action after logging the failure is the call
into the recovery procedure — never another publish attempt — and the
publish failure itself is never escalated to process exit: the iteration
can only end fatally if the recovery call itself returns an error, whose
message is then the one propagated; moreover the recovery procedure's own
trace never contains a publish. -/
theorem C2_publish_failure_enters_recovery :
    (∀ o : CycleOracle, o.isConnected = true → o.setModeOk = true → o.dataOk = true →
      o.publishOk = false →
      (cycleIteration o).1 = [Event.sleep 5000, Event.isConnQuery true,
          Event.setSensorMode true, Event.getSensorData true,
          Event.publishCall (encodeReading o.reading), Event.logPublishFail,
          Event.recoveryCall] ++ o.recovery.1 ∧
      (o.recovery.2 = .ok () → (cycleIteration o).2 = .recovered) ∧
      (∀ m, (cycleIteration o).2 = .fatal m → o.recovery.2 = .error m)) ∧
    (∀ isConn connectOk : Nat → Bool, ∀ subscribeOk fuel tr res,
      try_reconnect_wifi isConn connectOk subscribeOk fuel = some (tr, res) →
      ∀ s, Event.publishCall s ∉ tr) := by
  constructor
  · intro o h1 h2 h3 h4
    cases hrec : o.recovery.2 with
    | ok u =>
      cases u
      refine ⟨?_, ?_, ?_⟩
      · simp [cycleIteration, h1, h2, h3, h4, hrec]
      · intro _
        simp [cycleIteration, h1, h2, h3, h4, hrec]
      · intro m hm
        simp [cycleIteration, h1, h2, h3, h4, hrec] at hm
    | error e =>
      refine ⟨?_, ?_, ?_⟩
      · simp [cycleIteration, h1, h2, h3, h4, hrec]
      · intro hok
        exact absurd hok (by simp)
      · intro m hm
        simp [cycleIteration, h1, h2, h3, h4, hrec] at hm
        rw [hm]
  · intro isConn connectOk subscribeOk fuel tr res h s
    unfold try_reconnect_wifi at h
    cases hrec : reconnectLoopGo isConn connectOk 0 fuel with
    | none => rw [hrec] at h; simp at h
    | some p =>
      obtain ⟨tr0, k⟩ := p
      rw [hrec] at h
      simp at h
      obtain ⟨htr, _⟩ := h
      obtain ⟨_, _, hmem⟩ := reconnectLoopGo_some isConn connectOk fuel 0 tr0 k hrec
      subst htr
      intro hin
      simp at hin
      have := hmem _ hin
      simp [isReconnectEv] at this

/-- Witness for C2: a failing publish with all other operations healthy
and a successful recovery. -/
theorem C2_publish_failure_enters_recovery_witness :
    ((cycleIteration ⟨true, true, true, ⟨20, 50, 1000, 10000⟩, false, ([], .ok ())⟩).1 =
      [Event.sleep 5000, Event.isConnQuery true,
        Event.setSensorMode true, Event.getSensorData true,
        Event.publishCall (encodeReading ⟨20, 50, 1000, 10000⟩), Event.logPublishFail,
        Event.recoveryCall] ++
        (CycleOracle.mk true true true ⟨20, 50, 1000, 10000⟩ false ([], .ok ())).recovery.1 ∧
      ((CycleOracle.mk true true true ⟨20, 50, 1000, 10000⟩ false ([], .ok ())).recovery.2 = .ok () →
        (cycleIteration ⟨true, true, true, ⟨20, 50, 1000, 10000⟩, false, ([], .ok ())⟩).2 = .recovered) ∧
      (∀ m, (cycleIteration ⟨true, true, true, ⟨20, 50, 1000, 10000⟩, false, ([], .ok ())⟩).2 = .fatal m →
        (CycleOracle.mk true true true ⟨20, 50, 1000, 10000⟩ false ([], .ok ())).recovery.2 = .error m)) ∧
    (∀ s, Event.publishCall s ∉
      ([Event.isConnQuery false, Event.connectCall false, Event.sleep 10000,
        Event.isConnQuery true, Event.sleep 10000, Event.subscribeCall] : List Event)) :=
  ⟨C2_publish_failure_enters_recovery.1 ⟨true, true, true, ⟨20, 50, 1000, 10000⟩, false, ([], .ok ())⟩
      rfl rfl rfl rfl,
   fun s => C2_publish_failure_enters_recovery.2 (fun k => decide (1 ≤ k)) (fun _ => false)
      false 3 _ (Except.error "subscribe failed") rfl s⟩

/-- C3: in every cycle iteration where `is_connected()` is observed false
at the top (main.rs lines 144-147), the iteration is exactly the link
check followed by the recovery call and a `continue` — the sensor is not
triggered and nothing is published in that iteration, and the recovery
procedure itself performs no sensor or publish operation either. -/
theorem C3_link_down_skips_measure_and_publish :
    (∀ o : CycleOracle, o.isConnected = false →
      (cycleIteration o).1 = [Event.sleep 5000, Event.isConnQuery false,
        Event.recoveryCall] ++ o.recovery.1 ∧
      (o.recovery.2 = .ok () → (cycleIteration o).2 = .continued) ∧
      ((∀ e ∈ o.recovery.1, sensorOrPublish e = false) →
        ∀ e ∈ (cycleIteration o).1, sensorOrPublish e = false)) ∧
    (∀ isConn connectOk : Nat → Bool, ∀ subscribeOk fuel tr res,
      try_reconnect_wifi isConn connectOk subscribeOk fuel = some (tr, res) →
      ∀ e ∈ tr, sensorOrPublish e = false) := by
  constructor
  · intro o h1
    have htr : (cycleIteration o).1 = [Event.sleep 5000, Event.isConnQuery false,
        Event.recoveryCall] ++ o.recovery.1 := by
      cases hrec : o.recovery.2 with
      | ok u => simp [cycleIteration, h1, hrec]
      | error e => simp [cycleIteration, h1, hrec]
    refine ⟨htr, ?_, ?_⟩
    · intro hok
      simp [cycleIteration, h1, hok]
    · intro hrecov e he
      rw [htr] at he
      simp at he
      rcases he with he | he | he | he
      · subst he; rfl
      · subst he; rfl
      · subst he; rfl
      · exact hrecov e he
  · intro isConn connectOk subscribeOk fuel tr res h e he
    unfold try_reconnect_wifi at h
    cases hrec : reconnectLoopGo isConn connectOk 0 fuel with
    | none => rw [hrec] at h; simp at h
    | some p =>
      obtain ⟨tr0, k⟩ := p
      rw [hrec] at h
      simp at h
      obtain ⟨htr, _⟩ := h
      obtain ⟨_, _, hmem⟩ := reconnectLoopGo_some isConn connectOk fuel 0 tr0 k hrec
      subst htr
      simp at he
      rcases he with he | he | he
      · have := hmem _ he
        cases e <;> simp [isReconnectEv, sensorOrPublish] at this ⊢
      · subst he; rfl
      · subst he; rfl

/-- Witness for C3: a link observed down with a successful trivial
recovery. -/
theorem C3_link_down_skips_measure_and_publish_witness :
    ((cycleIteration ⟨false, true, true, ⟨20, 50, 1000, 10000⟩, true, ([], .ok ())⟩).1 =
      [Event.sleep 5000, Event.isConnQuery false, Event.recoveryCall] ++
        (CycleOracle.mk false true true ⟨20, 50, 1000, 10000⟩ true ([], .ok ())).recovery.1 ∧
      ((CycleOracle.mk false true true ⟨20, 50, 1000, 10000⟩ true ([], .ok ())).recovery.2 = .ok () →
        (cycleIteration ⟨false, true, true, ⟨20, 50, 1000, 10000⟩, true, ([], .ok ())⟩).2 = .continued) ∧
      ((∀ e ∈ (CycleOracle.mk false true true ⟨20, 50, 1000, 10000⟩ true ([], .ok ())).recovery.1,
          sensorOrPublish e = false) →
        ∀ e ∈ (cycleIteration ⟨false, true, true, ⟨20, 50, 1000, 10000⟩, true, ([], .ok ())⟩).1,
          sensorOrPublish e = false)) ∧
    (∀ e ∈ ([Event.isConnQuery false, Event.connectCall false, Event.sleep 10000,
        Event.isConnQuery true, Event.sleep 10000, Event.subscribeCall] : List Event),
      sensorOrPublish e = false) :=
  ⟨C3_link_down_skips_measure_and_publish.1
      ⟨false, true, true, ⟨20, 50, 1000, 10000⟩, true, ([], .ok ())⟩ rfl,
   fun e he => C3_link_down_skips_measure_and_publish.2 (fun k => decide (1 ≤ k)) (fun _ => false)
      false 3 _ (Except.error "subscribe failed") rfl e he⟩

/-- C7: a sensor measurement fault during a steady-state iteration
(main.rs lines 149-159) — failure of the forced-mode trigger
`set_sensor_mode` or of `get_sensor_data` — makes the iteration end
fatally with the descriptive error: no retry of the faulting call, no
recovery call, and no publish happen in that iteration. -/
theorem C7_sensor_fault_is_fatal :
    ∀ o : CycleOracle, o.isConnected = true →
      (o.setModeOk = false →
        cycleIteration o = ([Event.sleep 5000, Event.isConnQuery true,
          Event.setSensorMode false], .fatal "Failed to set sensor mode")) ∧
      (o.setModeOk = true → o.dataOk = false →
        cycleIteration o = ([Event.sleep 5000, Event.isConnQuery true,
          Event.setSensorMode true, Event.getSensorData false],
          .fatal "Failed to get sensor data")) := by
  intro o h1
  constructor
  · intro h2
    simp [cycleIteration, h1, h2]
  · intro h2 h3
    simp [cycleIteration, h1, h2, h3]

/-- Witness for C7: a failing forced-mode trigger and a failing data
read, each with the link up. -/
theorem C7_sensor_fault_is_fatal_witness :
    cycleIteration ⟨true, false, true, ⟨20, 50, 1000, 10000⟩, true, ([], .ok ())⟩ =
      ([Event.sleep 5000, Event.isConnQuery true, Event.setSensorMode false],
        .fatal "Failed to set sensor mode") ∧
    cycleIteration ⟨true, true, false, ⟨20, 50, 1000, 10000⟩, true, ([], .ok ())⟩ =
      ([Event.sleep 5000, Event.isConnQuery true, Event.setSensorMode true,
        Event.getSensorData false], .fatal "Failed to get sensor data") :=
  ⟨(C7_sensor_fault_is_fatal ⟨true, false, true, ⟨20, 50, 1000, 10000⟩, true, ([], .ok ())⟩ rfl).1 rfl,
   (C7_sensor_fault_is_fatal ⟨true, true, false, ⟨20, 50, 1000, 10000⟩, true, ([], .ok ())⟩ rfl).2 rfl rfl⟩

/-- C4: encoding the Reading {temperature 21.7, humidity 55.3,
pressure 1013.2, gas_resistance 12000.0} (main.rs lines 161-166)
truncates each value toward zero — 21.7 → 21, not 22 — joins them
comma-and-space separated into the single string "21, 55, 1013, 12000",
and serializes the wire payload as the JSON object with one "message"
field holding that string.  (`mkRat 217 10` is the rational 21.7, and so
on.) -/
theorem C4_encode_concrete_reading :
    sensorDataString ⟨mkRat 217 10, mkRat 553 10, mkRat 10132 10, 12000⟩ =
      "21, 55, 1013, 12000" ∧
    encodeReading ⟨mkRat 217 10, mkRat 553 10, mkRat 10132 10, 12000⟩ =
      "\x7b\"message\":\"21, 55, 1013, 12000\"\x7d" := by
  decide

/-- C5 is refuted by the code: the claim (and the spec) promise that for
arbitrary inbound byte content — including non-UTF-8 bytes — a decode
failure is logged and the payload dropped, with the callback never
aborting.  The code's error-log arm (main.rs line 99) calls
`std::str::from_utf8(data).unwrap()`, which panics on any payload that is
not valid UTF-8.  Evaluated at the failing input `[0xFF]` (non-empty,
not valid JSON, not valid UTF-8) the callback panics; the spec's own
example `b"\x7bnot json"`, being valid UTF-8, is logged and dropped as
promised. -/
theorem C5_nonutf8_inbound_payload_panics :
    onMessageReceived [255] = ReceivedOutcome.panicked ∧
    onMessageReceived [123, 110, 111, 116, 32, 106, 115, 111, 110] =
      ReceivedOutcome.logParseError "\x7bnot json" "payload does not match MqttMessage" := by
  decide

/-- C10: the encoding's float-to-u32 cast (`as u32`, main.rs line 161,
modelled by `castU32`) saturates: every negative field value — possible
for temperature given the configured -2.2 °C offset — encodes as "0" in
the payload string, every value at or above 2^32 encodes as 4294967295,
and no out-of-range value produces an error or wraps around (the cast is
total and clamps to [0, 4294967295]). -/
theorem C10_cast_saturates :
    (∀ r : Reading, r.temperature < 0 →
      sensorDataString r = "0, " ++ natToString (castU32 r.humidity) ++ ", " ++
        natToString (castU32 r.pressure) ++ ", " ++ natToString (castU32 r.gas_resistance)) ∧
    (∀ x : ℚ, x < 0 → castU32 x = 0) ∧
    (∀ x : ℚ, (4294967296 : ℚ) ≤ x → castU32 x = 4294967295) ∧
    (∀ x : ℚ, castU32 x ≤ 4294967295) := by
  have hneg : ∀ x : ℚ, x < 0 → castU32 x = 0 := by
    intro x hx
    simp [castU32, hx]
  refine ⟨?_, hneg, ?_, ?_⟩
  · intro r hr
    rw [sensorDataString, hneg r.temperature hr]
    rfl
  · intro x hx
    have hx0 : ¬ x < 0 := by
      intro hlt
      have : (4294967296 : ℚ) < 0 := lt_of_le_of_lt hx hlt
      norm_num at this
    have hfloor : (4294967296 : ℤ) ≤ x.floor := by
      rw [Rat.le_floor]
      exact_mod_cast hx
    have htoNat : 4294967296 ≤ x.floor.toNat := by
      omega
    rw [castU32, if_neg hx0]
    rw [U32_MAX]
    omega
  · intro x
    rw [castU32, U32_MAX]
    split
    · omega
    · omega

/-- Witness for C10: temperature -2.2 °C encodes as "0"; -1 casts to 0;
2^32 casts to 4294967295; 21.7 is within the clamp bound. -/
theorem C10_cast_saturates_witness :
    ((mkRat (-22) 10 : ℚ) < 0 ∧
      sensorDataString ⟨mkRat (-22) 10, mkRat 553 10, mkRat 10132 10, 12000⟩ =
        "0, " ++ natToString (castU32 (mkRat 553 10)) ++ ", " ++
        natToString (castU32 (mkRat 10132 10)) ++ ", " ++ natToString (castU32 12000)) ∧
    ((-1 : ℚ) < 0 ∧ castU32 (-1) = 0) ∧
    ((4294967296 : ℚ) ≤ (4294967296 : ℚ) ∧ castU32 4294967296 = 4294967295) ∧
    castU32 (mkRat 217 10) ≤ 4294967295 :=
  ⟨⟨by decide, C10_cast_saturates.1 ⟨mkRat (-22) 10, mkRat 553 10, mkRat 10132 10, 12000⟩ (by decide)⟩,
   ⟨by decide, C10_cast_saturates.2.1 (-1) (by decide)⟩,
   ⟨le_refl _, C10_cast_saturates.2.2.1 4294967296 (le_refl _)⟩,
   C10_cast_saturates.2.2.2 (mkRat 217 10)⟩

end Esp32Aws
